import Mathlib

/-!
Verification of the Census Income Prediction API (`main.py`) and its
performance-monitoring client (`scripts/performance_monitor.py`).

The HTTP service is embedded as a pure state machine: the process-wide
globals of `main.py` (`request_count`, `model_predictions`, `model_loaded`)
form a `ServiceState`, each route handler is a Lean function from state and
request to state and response, and the `log_requests` middleware is applied
before a handler runs, exactly as FastAPI does.

The pickled encoder and model artifacts (`ml.data.process_data`,
`ml.model.inference`, `model.predict_proba`, `ml.data.apply_label`) are not
part of this repository tree; they are modelled from the spec as abstract
deterministic functions with the documented contracts (a probability
distribution over the two classes that is nonnegative and sums to 1, and a
label mapping into the two class strings).
-/

deriving instance DecidableEq for Except

namespace CensusAPI

/-- The 14-field census attribute record validated by the `Data` pydantic
model in `main.py` (underscored internal names; hyphenated wire aliases are
a transport detail). -/
structure AttributeRecord where
  age : Int
  workclass : String
  fnlgt : Int
  education : String
  education_num : Int
  marital_status : String
  occupation : String
  relationship : String
  race : String
  sex : String
  capital_gain : Int
  capital_loss : Int
  hours_per_week : Int
  native_country : String
deriving DecidableEq, Repr

/-- Modelled from the spec: `ml.data.apply_label` is imported by `main.py`
but its source is not in the repository tree; per the spec the integer class
prediction is mapped to one of the two class label strings. -/
def apply_label (pred : Nat) : String :=
  if pred = 1 then ">50K" else "<=50K"

/-- Modelled from the spec: the fitted encoder artifact together with
`ml.data.process_data` (`training=False`), absent from the repository tree.
It deterministically encodes a record into a numeric feature vector and may
fail (EncodingError), in which case the caller sees an exception. -/
structure EncoderArtifact where
  encode : AttributeRecord → Except String (List ℚ)

/-- Modelled from the spec: the trained classifier artifact together with
`ml.model.inference`, absent from the repository tree. `proba` is
`model.predict_proba` (the probability for each of the two classes), `infer`
is `inference` (the integer class prediction); both are deterministic and
may fail (InferenceError). The spec fixes the contract that a returned
distribution is nonnegative and sums to 1. -/
structure ModelArtifact where
  proba : List ℚ → Except String (ℚ × ℚ)
  infer : List ℚ → Except String Nat
  proba_nonneg : ∀ v p, proba v = Except.ok p → 0 ≤ p.1 ∧ 0 ≤ p.2
  proba_sum_one : ∀ v p, proba v = Except.ok p → p.1 + p.2 = 1

/-- The two opaque artifacts loaded once at startup in `main.py`. -/
structure Artifacts where
  encoder : EncoderArtifact
  model : ModelArtifact

/-- The process-wide mutable globals of `main.py`: `request_count`, the two
entries of the `model_predictions` dict, and the `model_loaded` flag set by
the startup `try/except`. -/
structure ServiceState where
  request_count : Nat
  preds_gt50K : Nat
  preds_le50K : Nat
  model_loaded : Bool
deriving DecidableEq, Repr

/-- The state right after module import: counters zero, `model_loaded` as
determined by whether artifact loading succeeded. -/
def initState (loaded : Bool) : ServiceState :=
  { request_count := 0, preds_gt50K := 0, preds_le50K := 0, model_loaded := loaded }

/-- `sum(model_predictions.values())`. -/
def predSum (s : ServiceState) : Nat :=
  s.preds_gt50K + s.preds_le50K

/-- `model_predictions[prediction_label] += 1`: a dict update that raises
`KeyError` for any key other than the two initialized labels. -/
def bumpPrediction (s : ServiceState) (lbl : String) : Except String ServiceState :=
  if lbl = ">50K" then Except.ok { s with preds_gt50K := s.preds_gt50K + 1 }
  else if lbl = "<=50K" then Except.ok { s with preds_le50K := s.preds_le50K + 1 }
  else Except.error ("KeyError: " ++ lbl)

/-- An `HTTPException` carries a status code and a detail message. -/
structure HTTPError where
  status : Nat
  detail : String
deriving DecidableEq, Repr

/-- The `try` block of `predict_income`: process the record, call
`predict_proba` and `inference`, map the prediction to a label, take the
confidence as the maximum of the probability distribution
(`float(np.max(prediction_proba))`), and increment the label counter. Any
exception escapes as `Except.error`. -/
def runPipeline (A : Artifacts) (s : ServiceState) (r : AttributeRecord) :
    Except String (ServiceState × String × ℚ) :=
  match A.encoder.encode r with
  | Except.error e => Except.error e
  | Except.ok vec =>
    match A.model.proba vec with
    | Except.error e => Except.error e
    | Except.ok p =>
      match A.model.infer vec with
      | Except.error e => Except.error e
      | Except.ok pred =>
        let prediction_label := apply_label pred
        let confidence := max p.1 p.2
        match bumpPrediction s prediction_label with
        | Except.error e => Except.error e
        | Except.ok s2 => Except.ok (s2, prediction_label, confidence)

/-- `predict_income` (`main.py` lines 199-256): 503 before any pipeline work
when the model is not loaded; otherwise run the pipeline, turning an escaped
exception into a 500 with a `Prediction failed` detail. Returns the updated
globals together with either the (label, confidence) payload or the raised
`HTTPException`. -/
def predict_income (A : Artifacts) (s : ServiceState) (r : AttributeRecord) :
    ServiceState × Except HTTPError (String × ℚ) :=
  if s.model_loaded = false then
    (s, Except.error { status := 503, detail := "Model not available" })
  else
    match runPipeline A s r with
    | Except.ok (s2, lbl, conf) => (s2, Except.ok (lbl, conf))
    | Except.error e =>
        (s, Except.error { status := 500, detail := "Prediction failed: " ++ e })

/-- The requests the handlers under test receive. -/
inductive Request
  | root
  | health
  | metrics
  | modelInfo
  | predict (r : AttributeRecord)
  | legacy (r : AttributeRecord)
deriving DecidableEq, Repr

/-- The observable response bodies (error responses record the status code,
the JSON key used for the message, and the message). -/
inductive Response
  | root
  | health (status : String) (model_loaded : Bool)
  | metrics (request_count : Nat) (dist_gt50K dist_le50K : Nat)
  | modelInfo (features : List String) (target_classes : List String)
  | prediction (label : String) (confidence : ℚ)
  | legacyResult (label : String)
  | errorJSON (status : Nat) (key : String) (detail : String)
deriving DecidableEq, Repr

/-- HTTP status code of a response (non-error bodies are returned with 200). -/
def Response.statusCode : Response → Nat
  | Response.errorJSON c _ _ => c
  | _ => 200

/-- The `log_requests` middleware: `request_count += 1` before the route
handler runs, for every request regardless of outcome. -/
def log_requests (s : ServiceState) : ServiceState :=
  { s with request_count := s.request_count + 1 }

/-- `health_check` (`main.py` lines 143-155): always a 200 body reporting
the startup `model_loaded` flag. -/
def health_check (s : ServiceState) : Response :=
  Response.health (if s.model_loaded then "healthy" else "unhealthy") s.model_loaded

/-- `get_metrics` (`main.py` lines 158-177): a pure read of the counters. -/
def get_metrics (s : ServiceState) : Response :=
  Response.metrics s.request_count s.preds_gt50K s.preds_le50K

/-- `get_model_info` (`main.py` lines 180-196). -/
def get_model_info (s : ServiceState) : Response :=
  if s.model_loaded then
    Response.modelInfo
      ["age", "workclass", "fnlgt", "education", "education-num",
       "marital-status", "occupation", "relationship", "race", "sex",
       "capital-gain", "capital-loss", "hours-per-week", "native-country"]
      [">50K", "<=50K"]
  else Response.errorJSON 503 "detail" "Model not loaded"

/-- The `/v1/predict` route: a raised `HTTPException` becomes a JSON body
under the `detail` key. -/
def predict_route (A : Artifacts) (s : ServiceState) (r : AttributeRecord) :
    ServiceState × Response :=
  match predict_income A s r with
  | (s2, Except.ok (lbl, conf)) => (s2, Response.prediction lbl conf)
  | (s2, Except.error e) => (s2, Response.errorJSON e.status "detail" e.detail)

/-- `legacy_inference` (`main.py` lines 259-269): awaits `predict_income`
and returns only the label under the `result` key; a caught `HTTPException`
is re-shaped into a JSON body under the `error` key with the same status. -/
def legacy_inference (A : Artifacts) (s : ServiceState) (r : AttributeRecord) :
    ServiceState × Response :=
  match predict_income A s r with
  | (s2, Except.ok (lbl, _)) => (s2, Response.legacyResult lbl)
  | (s2, Except.error e) => (s2, Response.errorJSON e.status "error" e.detail)

/-- One full request/response cycle: the middleware increments the counter,
then the matched route handler runs on the updated globals. -/
def handleRequest (A : Artifacts) (s : ServiceState) (req : Request) :
    ServiceState × Response :=
  let s1 := log_requests s
  match req with
  | Request.root => (s1, Response.root)
  | Request.health => (s1, health_check s1)
  | Request.metrics => (s1, get_metrics s1)
  | Request.modelInfo => (s1, get_model_info s1)
  | Request.predict r => predict_route A s1 r
  | Request.legacy r => legacy_inference A s1 r

/-- Sequential handling of a list of requests, returning the final globals
and the responses in order. -/
def runRequests (A : Artifacts) (s : ServiceState) : List Request → ServiceState × List Response
  | [] => (s, [])
  | req :: rest =>
      let p := handleRequest A s req
      let q := runRequests A p.1 rest
      (q.1, p.2 :: q.2)

/-- A response that reports a successfully completed prediction (either the
`/v1/predict` body or the legacy `result` body, both of which are produced
only after `predict_income` succeeded and incremented the label counter). -/
def Response.isSuccessfulPrediction : Response → Bool
  | Response.prediction _ _ => true
  | Response.legacyResult _ => true
  | _ => false

/-- A failed request: the response carries an error status (≥ 400). -/
def Response.isFailed (resp : Response) : Bool :=
  decide (400 ≤ resp.statusCode)

/-- K: how many of the responses report a successful prediction. -/
def countSuccPred (resps : List Response) : Nat :=
  (resps.filter Response.isSuccessfulPrediction).length

/-- M: how many of the responses report a failed request. -/
def countFailed (resps : List Response) : Nat :=
  (resps.filter Response.isFailed).length

/-! ### Concrete artifacts used to witness the theorems -/

/-- A concrete encoder: every record maps to the vector `[1, 0]`. -/
def demoEncoder : EncoderArtifact :=
  { encode := fun _ => Except.ok [1, 0] }

/-- A concrete classifier: probability 1 for class 0, prediction 0. -/
def demoModel : ModelArtifact where
  proba := fun _ => Except.ok (1, 0)
  infer := fun _ => Except.ok 0
  proba_nonneg := by
    intro v p h
    simp only [Except.ok.injEq] at h
    subst h
    norm_num
  proba_sum_one := by
    intro v p h
    simp only [Except.ok.injEq] at h
    subst h
    norm_num

/-- A second concrete classifier whose behavior differs from `demoModel`. -/
def demoModel2 : ModelArtifact where
  proba := fun _ => Except.ok (0, 1)
  infer := fun _ => Except.ok 1
  proba_nonneg := by
    intro v p h
    simp only [Except.ok.injEq] at h
    subst h
    norm_num
  proba_sum_one := by
    intro v p h
    simp only [Except.ok.injEq] at h
    subst h
    norm_num

/-- An encoder that always fails, as when the feature construction raises. -/
def failingEncoder : EncoderArtifact :=
  { encode := fun _ => Except.error "EncodingError" }

def demoArtifacts : Artifacts :=
  { encoder := demoEncoder, model := demoModel }

def demoArtifacts2 : Artifacts :=
  { encoder := demoEncoder, model := demoModel2 }

def failingArtifacts : Artifacts :=
  { encoder := failingEncoder, model := demoModel }

/-- The sample record used throughout the repository tests and the
monitoring client. -/
def demoRecord : AttributeRecord :=
  { age := 37, workclass := "Private", fnlgt := 178356, education := "HS-grad",
    education_num := 10, marital_status := "Married-civ-spouse",
    occupation := "Prof-specialty", relationship := "Husband", race := "White",
    sex := "Male", capital_gain := 0, capital_loss := 0, hours_per_week := 40,
    native_country := "United-States" }

end CensusAPI


namespace PerfMonitor

/-!
Embedding of the monitoring client (`scripts/performance_monitor.py`).

A cycle's collected metrics are modelled by the fields that the alerting
and history logic reads. A Python value that may be `None` is an `Option`;
comparing `None` with a float using `>` raises `TypeError`, which the
embedding surfaces as `Except.error` (the exception escapes `check_alerts`
and `start_monitoring`, whose `try` only catches `KeyboardInterrupt`).
-/

/-- Result dict of `check_health`: all three return branches carry a
`status` and a `response_time` key; the `RequestException` branch stores
`None` as the response time. -/
structure HealthResult where
  status : String
  response_time : Option ℚ
deriving DecidableEq, Repr

/-- Result dict of `check_prediction_performance`, same shape. -/
structure PredictionCheck where
  status : String
  response_time : Option ℚ
deriving DecidableEq, Repr

/-- Result dict of `run_load_test` (the fields `check_alerts` reads). -/
structure LoadTestResult where
  success_rate : ℚ
deriving DecidableEq, Repr

/-- One entry of `metrics_history`, as assembled by `collect_metrics`. -/
structure CycleMetrics where
  health : HealthResult
  prediction : PredictionCheck
  load_test : LoadTestResult
deriving DecidableEq, Repr

/-- Python `v > bound` where `v` came from `dict.get` and may be `None`:
`None > float` raises `TypeError` in Python 3. -/
def pyGtFloat (v : Option ℚ) (bound : ℚ) : Except String Bool :=
  match v with
  | none => Except.error "TypeError: unsupported comparison between NoneType and float"
  | some x => Except.ok (decide (bound < x))

/-- `check_alerts` (`performance_monitor.py` lines 346-367): collect the
advisory alert strings; the two response-time comparisons raise when the
recorded response time is `None`. -/
def check_alerts (m : CycleMetrics) : Except String (List String) :=
  let alerts0 : List String :=
    if m.health.status ≠ "healthy" then ["API Health: " ++ m.health.status] else []
  match pyGtFloat m.health.response_time 5 with
  | Except.error e => Except.error e
  | Except.ok slowHealth =>
    let alerts1 := if slowHealth then alerts0 ++ ["Slow health response"] else alerts0
    match pyGtFloat m.prediction.response_time 2 with
    | Except.error e => Except.error e
    | Except.ok slowPred =>
      let alerts2 := if slowPred then alerts1 ++ ["Slow prediction response"] else alerts1
      Except.ok (if m.load_test.success_rate < (8 : ℚ) / 10 then
        alerts2 ++ ["Low success rate"] else alerts2)

/-- `collect_metrics` history update (`performance_monitor.py` lines
204-208): append the new entry, then keep only the last 100
(`metrics_history[-100:]`). -/
def collect_metrics (hist : List CycleMetrics) (m : CycleMetrics) : List CycleMetrics :=
  let h := hist ++ [m]
  if 100 < h.length then List.drop (h.length - 100) h else h

/-- One iteration of the `start_monitoring` loop: collect the cycle metrics
into the history, then run `check_alerts`; an exception escaping
`check_alerts` terminates the loop (only `KeyboardInterrupt` is caught), so
it is surfaced as `Except.error`. -/
def monitorCycle (hist : List CycleMetrics) (m : CycleMetrics) :
    Except String (List CycleMetrics) :=
  let hist2 := collect_metrics hist m
  match check_alerts m with
  | Except.error e => Except.error e
  | Except.ok _ => Except.ok hist2

/-- A cycle in which the health check hit a `RequestException`: the
recorded dict is `status = error`, `response_time = None`. -/
def failedHealthCycle : CycleMetrics :=
  { health := { status := "error", response_time := none },
    prediction := { status := "success", response_time := some (1 / 10) },
    load_test := { success_rate := 1 } }

end PerfMonitor


namespace CensusAPI

/-! ### Basic lemmas about the pipeline -/

lemma apply_label_cases (pred : Nat) :
    apply_label pred = ">50K" ∨ apply_label pred = "<=50K" := by
  unfold apply_label
  by_cases h : pred = 1 <;> simp [h]

lemma bump_gt (s : ServiceState) :
    bumpPrediction s ">50K" = Except.ok { s with preds_gt50K := s.preds_gt50K + 1 } := by
  unfold bumpPrediction
  rw [if_pos rfl]

lemma bump_le (s : ServiceState) :
    bumpPrediction s "<=50K" = Except.ok { s with preds_le50K := s.preds_le50K + 1 } := by
  unfold bumpPrediction
  rw [if_neg (by decide), if_pos rfl]

/-- `model_predictions[apply_label pred] += 1` always succeeds and adds
exactly one to the total, leaving the other globals alone. -/
lemma bump_apply_label (s : ServiceState) (pred : Nat) :
    ∃ s2, bumpPrediction s (apply_label pred) = Except.ok s2 ∧
      predSum s2 = predSum s + 1 ∧ s2.model_loaded = s.model_loaded ∧
      s2.request_count = s.request_count := by
  rcases apply_label_cases pred with h | h <;> rw [h]
  · exact ⟨_, bump_gt s, by simp [predSum]; omega, rfl, rfl⟩
  · exact ⟨_, bump_le s, by simp [predSum]; omega, rfl, rfl⟩

/-- The pipeline on a fixed record either fails identically from every
state, or succeeds from every state with a state-independent label and
confidence, incrementing the prediction total by exactly one. -/
lemma runPipeline_cases (A : Artifacts) (r : AttributeRecord) :
    (∃ e, ∀ s, runPipeline A s r = Except.error e) ∨
    (∃ vec p pred, A.encoder.encode r = Except.ok vec ∧
      A.model.proba vec = Except.ok p ∧ A.model.infer vec = Except.ok pred ∧
      ∀ s, ∃ s2, runPipeline A s r = Except.ok (s2, apply_label pred, max p.1 p.2) ∧
        predSum s2 = predSum s + 1 ∧ s2.model_loaded = s.model_loaded ∧
        s2.request_count = s.request_count) := by
  cases h1 : A.encoder.encode r with
  | error e => exact Or.inl ⟨e, fun s => by simp [runPipeline, h1]⟩
  | ok vec =>
    cases h2 : A.model.proba vec with
    | error e => exact Or.inl ⟨e, fun s => by simp [runPipeline, h1, h2]⟩
    | ok p =>
      cases h3 : A.model.infer vec with
      | error e => exact Or.inl ⟨e, fun s => by simp [runPipeline, h1, h2, h3]⟩
      | ok pred =>
        refine Or.inr ⟨vec, p, pred, rfl, h2, h3, fun s => ?_⟩
        obtain ⟨s2, hb, hsum, hml, hrc⟩ := bump_apply_label s pred
        exact ⟨s2, by simp [runPipeline, h1, h2, h3, hb], hsum, hml, hrc⟩

lemma predict_income_not_loaded (A : Artifacts) (s : ServiceState)
    (r : AttributeRecord) (h : s.model_loaded = false) :
    predict_income A s r = (s, Except.error { status := 503, detail := "Model not available" }) := by
  simp [predict_income, h]

lemma predict_income_loaded_ok (A : Artifacts) (s : ServiceState) (r : AttributeRecord)
    (hml : s.model_loaded = true) (s2 : ServiceState) (lbl : String) (conf : ℚ)
    (hrun : runPipeline A s r = Except.ok (s2, lbl, conf)) :
    predict_income A s r = (s2, Except.ok (lbl, conf)) := by
  simp [predict_income, hml, hrun]

lemma predict_income_loaded_err (A : Artifacts) (s : ServiceState) (r : AttributeRecord)
    (hml : s.model_loaded = true) (e : String)
    (hrun : runPipeline A s r = Except.error e) :
    predict_income A s r =
      (s, Except.error { status := 500, detail := "Prediction failed: " ++ e }) := by
  simp [predict_income, hml, hrun]

/-- `predict_income` never touches `request_count` or `model_loaded`, and
adds one to the prediction total exactly when it returns a success. -/
lemma predict_income_counts (A : Artifacts) (s : ServiceState) (r : AttributeRecord) :
    (predict_income A s r).1.request_count = s.request_count ∧
    (predict_income A s r).1.model_loaded = s.model_loaded ∧
    predSum (predict_income A s r).1 =
      predSum s + (if (predict_income A s r).2.isOk then 1 else 0) := by
  by_cases hml : s.model_loaded = false
  · simp [predict_income_not_loaded A s r hml, Except.isOk, Except.toBool]
  · have hml2 : s.model_loaded = true := by
      cases h : s.model_loaded
      · exact absurd h hml
      · rfl
    rcases runPipeline_cases A r with ⟨e, he⟩ | ⟨vec, p, pred, _, _, _, hok⟩
    · simp [predict_income, hml2, he s, Except.isOk, Except.toBool]
    · obtain ⟨s2, hrun, hsum, hm, hrc⟩ := hok s
      simp [predict_income, hml2, hrun, Except.isOk, Except.toBool, hsum, hm, hrc]

/-! ### Lemmas about the route handlers -/

lemma predict_route_fst (A : Artifacts) (s : ServiceState) (r : AttributeRecord) :
    (predict_route A s r).1 = (predict_income A s r).1 := by
  rcases h : predict_income A s r with ⟨s2, res⟩
  cases res with
  | error e => simp [predict_route, h]
  | ok vp =>
      rcases vp with ⟨lbl, conf⟩
      simp [predict_route, h]

lemma legacy_inference_fst (A : Artifacts) (s : ServiceState) (r : AttributeRecord) :
    (legacy_inference A s r).1 = (predict_income A s r).1 := by
  rcases h : predict_income A s r with ⟨s2, res⟩
  cases res with
  | error e => simp [legacy_inference, h]
  | ok vp =>
      rcases vp with ⟨lbl, conf⟩
      simp [legacy_inference, h]

lemma predict_route_ok (A : Artifacts) (s : ServiceState) (r : AttributeRecord)
    (lbl : String) (conf : ℚ)
    (h : (predict_income A s r).2 = Except.ok (lbl, conf)) :
    (predict_route A s r).2 = Response.prediction lbl conf := by
  rcases hp : predict_income A s r with ⟨s2, res⟩
  rw [hp] at h
  simp only at h
  subst h
  simp [predict_route, hp]

lemma predict_route_err (A : Artifacts) (s : ServiceState) (r : AttributeRecord)
    (e : HTTPError) (h : (predict_income A s r).2 = Except.error e) :
    (predict_route A s r).2 = Response.errorJSON e.status "detail" e.detail := by
  rcases hp : predict_income A s r with ⟨s2, res⟩
  rw [hp] at h
  simp only at h
  subst h
  simp [predict_route, hp]

lemma legacy_inference_ok (A : Artifacts) (s : ServiceState) (r : AttributeRecord)
    (lbl : String) (conf : ℚ)
    (h : (predict_income A s r).2 = Except.ok (lbl, conf)) :
    (legacy_inference A s r).2 = Response.legacyResult lbl := by
  rcases hp : predict_income A s r with ⟨s2, res⟩
  rw [hp] at h
  simp only at h
  subst h
  simp [legacy_inference, hp]

lemma legacy_inference_err (A : Artifacts) (s : ServiceState) (r : AttributeRecord)
    (e : HTTPError) (h : (predict_income A s r).2 = Except.error e) :
    (legacy_inference A s r).2 = Response.errorJSON e.status "error" e.detail := by
  rcases hp : predict_income A s r with ⟨s2, res⟩
  rw [hp] at h
  simp only at h
  subst h
  simp [legacy_inference, hp]

lemma predSum_log_requests (s : ServiceState) : predSum (log_requests s) = predSum s := rfl

lemma log_requests_model_loaded (s : ServiceState) :
    (log_requests s).model_loaded = s.model_loaded := rfl

/-! ### Per-request step lemmas -/

lemma handleRequest_request_count (A : Artifacts) (s : ServiceState) (req : Request) :
    (handleRequest A s req).1.request_count = s.request_count + 1 := by
  cases req with
  | root => rfl
  | health => rfl
  | metrics => rfl
  | modelInfo => rfl
  | predict r =>
      show (predict_route A (log_requests s) r).1.request_count = s.request_count + 1
      rw [predict_route_fst, (predict_income_counts A (log_requests s) r).1]
      rfl
  | legacy r =>
      show (legacy_inference A (log_requests s) r).1.request_count = s.request_count + 1
      rw [legacy_inference_fst, (predict_income_counts A (log_requests s) r).1]
      rfl

lemma handleRequest_model_loaded (A : Artifacts) (s : ServiceState) (req : Request) :
    (handleRequest A s req).1.model_loaded = s.model_loaded := by
  cases req with
  | root => rfl
  | health => rfl
  | metrics => rfl
  | modelInfo => rfl
  | predict r =>
      show (predict_route A (log_requests s) r).1.model_loaded = s.model_loaded
      rw [predict_route_fst, (predict_income_counts A (log_requests s) r).2.1]
      rfl
  | legacy r =>
      show (legacy_inference A (log_requests s) r).1.model_loaded = s.model_loaded
      rw [legacy_inference_fst, (predict_income_counts A (log_requests s) r).2.1]
      rfl

lemma handleRequest_predSum (A : Artifacts) (s : ServiceState) (req : Request) :
    predSum (handleRequest A s req).1 =
      predSum s + (if (handleRequest A s req).2.isSuccessfulPrediction then 1 else 0) := by
  cases req with
  | root => simp [handleRequest, Response.isSuccessfulPrediction, predSum_log_requests]
  | health => simp [handleRequest, health_check, Response.isSuccessfulPrediction, predSum_log_requests]
  | metrics => simp [handleRequest, get_metrics, Response.isSuccessfulPrediction, predSum_log_requests]
  | modelInfo =>
      by_cases h : (log_requests s).model_loaded <;>
        simp [handleRequest, get_model_info, h, Response.isSuccessfulPrediction, predSum_log_requests]
  | predict r =>
      have hc := (predict_income_counts A (log_requests s) r).2.2
      rcases hp : predict_income A (log_requests s) r with ⟨s2, res⟩
      rw [hp] at hc
      cases res with
      | error e =>
          have h2 := predict_route_err A (log_requests s) r e (by rw [hp])
          simp only [handleRequest]
          rw [predict_route_fst, hp]
          simp only [h2]
          simpa [Except.isOk, Except.toBool, Response.isSuccessfulPrediction,
            predSum_log_requests] using hc
      | ok vp =>
          rcases vp with ⟨lbl, conf⟩
          have h2 := predict_route_ok A (log_requests s) r lbl conf (by rw [hp])
          simp only [handleRequest]
          rw [predict_route_fst, hp]
          simp only [h2]
          simpa [Except.isOk, Except.toBool, Response.isSuccessfulPrediction,
            predSum_log_requests] using hc
  | legacy r =>
      have hc := (predict_income_counts A (log_requests s) r).2.2
      rcases hp : predict_income A (log_requests s) r with ⟨s2, res⟩
      rw [hp] at hc
      cases res with
      | error e =>
          have h2 := legacy_inference_err A (log_requests s) r e (by rw [hp])
          simp only [handleRequest]
          rw [legacy_inference_fst, hp]
          simp only [h2]
          simpa [Except.isOk, Except.toBool, Response.isSuccessfulPrediction,
            predSum_log_requests] using hc
      | ok vp =>
          rcases vp with ⟨lbl, conf⟩
          have h2 := legacy_inference_ok A (log_requests s) r lbl conf (by rw [hp])
          simp only [handleRequest]
          rw [legacy_inference_fst, hp]
          simp only [h2]
          simpa [Except.isOk, Except.toBool, Response.isSuccessfulPrediction,
            predSum_log_requests] using hc

/-! ### Sequence-level lemmas -/

lemma runRequests_cons (A : Artifacts) (s : ServiceState) (req : Request)
    (rest : List Request) :
    runRequests A s (req :: rest) =
      ((runRequests A (handleRequest A s req).1 rest).1,
       (handleRequest A s req).2 :: (runRequests A (handleRequest A s req).1 rest).2) := rfl

lemma runRequests_length (A : Artifacts) (s : ServiceState) (reqs : List Request) :
    (runRequests A s reqs).2.length = reqs.length := by
  induction reqs generalizing s with
  | nil => rfl
  | cons req rest ih => simp [runRequests_cons, ih]

lemma runRequests_request_count (A : Artifacts) (s : ServiceState) (reqs : List Request) :
    (runRequests A s reqs).1.request_count = s.request_count + reqs.length := by
  induction reqs generalizing s with
  | nil => rfl
  | cons req rest ih =>
      rw [runRequests_cons]
      show (runRequests A (handleRequest A s req).1 rest).1.request_count = _
      rw [ih, handleRequest_request_count]
      simp
      omega

lemma runRequests_model_loaded (A : Artifacts) (s : ServiceState) (reqs : List Request) :
    (runRequests A s reqs).1.model_loaded = s.model_loaded := by
  induction reqs generalizing s with
  | nil => rfl
  | cons req rest ih =>
      rw [runRequests_cons]
      show (runRequests A (handleRequest A s req).1 rest).1.model_loaded = _
      rw [ih, handleRequest_model_loaded]

lemma countSuccPred_cons (resp : Response) (resps : List Response) :
    countSuccPred (resp :: resps) =
      (if resp.isSuccessfulPrediction then 1 else 0) + countSuccPred resps := by
  unfold countSuccPred
  rw [List.filter_cons]
  by_cases h : resp.isSuccessfulPrediction <;> simp [h]
  omega

lemma runRequests_predSum (A : Artifacts) (s : ServiceState) (reqs : List Request) :
    predSum (runRequests A s reqs).1 =
      predSum s + countSuccPred (runRequests A s reqs).2 := by
  induction reqs generalizing s with
  | nil => simp [runRequests, countSuccPred]
  | cons req rest ih =>
      rw [runRequests_cons]
      show predSum (runRequests A (handleRequest A s req).1 rest).1 = _
      rw [ih, handleRequest_predSum, countSuccPred_cons]
      omega

/-- A successful-prediction response has status 200, hence is not failed. -/
lemma succ_not_failed (resp : Response) :
    resp.isSuccessfulPrediction = true -> resp.isFailed = false := by
  intro h
  cases resp <;> simp [Response.isSuccessfulPrediction] at h <;>
    simp [Response.isFailed, Response.statusCode]

/-- Counting two mutually exclusive classes never exceeds the list length. -/
lemma length_filter_disjoint {a : Type} (p q : a -> Bool) (l : List a)
    (h : forall x, p x = true -> q x = false) :
    (l.filter p).length + (l.filter q).length <= l.length := by
  induction l with
  | nil => simp
  | cons x t ih =>
      rw [List.filter_cons, List.filter_cons]
      by_cases hp : p x
      · have hq : q x = false := h x hp
        simp [hp, hq]
        omega
      · by_cases hq : q x <;> simp [hp, hq] <;> omega

/-! ### Behavior when the model is not loaded -/

/-- With `model_loaded = false` the whole request cycle is independent of
the artifacts (the 503 short-circuits before any pipeline work), the health
body reports `unhealthy`/`false`, and a predict request gets the 503. -/
lemma handleRequest_not_loaded (A A2 : Artifacts) (s : ServiceState) (req : Request)
    (h : s.model_loaded = false) :
    handleRequest A s req = handleRequest A2 s req ∧
    (req = Request.health → (handleRequest A s req).2 = Response.health "unhealthy" false) ∧
    (∀ r, req = Request.predict r →
      (handleRequest A s req).2 = Response.errorJSON 503 "detail" "Model not available") := by
  have hl : (log_requests s).model_loaded = false := h
  cases req with
  | root => simp [handleRequest]
  | health => simp [handleRequest, health_check, hl]
  | metrics => simp [handleRequest, get_metrics]
  | modelInfo => simp [handleRequest, get_model_info, hl]
  | predict r =>
      have h1 := predict_income_not_loaded A (log_requests s) r hl
      have h2 := predict_income_not_loaded A2 (log_requests s) r hl
      refine ⟨?_, by simp, ?_⟩
      · show predict_route A (log_requests s) r = predict_route A2 (log_requests s) r
        simp [predict_route, h1, h2]
      · intro r2 hr
        simp only [Request.predict.injEq] at hr
        subst hr
        show (predict_route A (log_requests s) r).2 = _
        simp [predict_route, h1]
  | legacy r =>
      have h1 := predict_income_not_loaded A (log_requests s) r hl
      have h2 := predict_income_not_loaded A2 (log_requests s) r hl
      refine ⟨?_, by simp, by simp⟩
      show legacy_inference A (log_requests s) r = legacy_inference A2 (log_requests s) r
      simp [legacy_inference, h1, h2]

/-- The response to a predict request depends only on the artifacts, the
record and the `model_loaded` flag, never on the counters. -/
lemma predict_resp_congr (A : Artifacts) (s t : ServiceState) (r : AttributeRecord)
    (h : s.model_loaded = t.model_loaded) :
    (handleRequest A s (Request.predict r)).2 = (handleRequest A t (Request.predict r)).2 := by
  have hs : handleRequest A s (Request.predict r) = predict_route A (log_requests s) r := rfl
  have ht : handleRequest A t (Request.predict r) = predict_route A (log_requests t) r := rfl
  rw [hs, ht]
  by_cases hml : s.model_loaded = false
  · have h1 := predict_income_not_loaded A (log_requests s) r hml
    have h2 := predict_income_not_loaded A (log_requests t) r
      (show t.model_loaded = false by rw [← h]; exact hml)
    simp [predict_route, h1, h2]
  · have hml2 : s.model_loaded = true := by
      cases hm : s.model_loaded
      · exact absurd hm hml
      · rfl
    have hml3 : t.model_loaded = true := by rw [← h]; exact hml2
    rcases runPipeline_cases A r with ⟨e, he⟩ | ⟨vec, p, pred, _, _, _, hok⟩
    · have h1 := predict_income_loaded_err A (log_requests s) r hml2 e (he (log_requests s))
      have h2 := predict_income_loaded_err A (log_requests t) r hml3 e (he (log_requests t))
      simp [predict_route, h1, h2]
    · obtain ⟨s2, hrun1, -, -, -⟩ := hok (log_requests s)
      obtain ⟨t2, hrun2, -, -, -⟩ := hok (log_requests t)
      have h1 := predict_income_loaded_ok A (log_requests s) r hml2 s2 _ _ hrun1
      have h2 := predict_income_loaded_ok A (log_requests t) r hml3 t2 _ _ hrun2
      simp [predict_route, h1, h2]

/-- An `HTTPException` escaping `predict_income` carries status 503 or 500. -/
lemma predict_income_err_status (A : Artifacts) (s : ServiceState) (r : AttributeRecord)
    (e : HTTPError) (h : (predict_income A s r).2 = Except.error e) :
    e.status = 503 ∨ e.status = 500 := by
  by_cases hml : s.model_loaded = false
  · rw [predict_income_not_loaded A s r hml] at h
    simp only [Except.error.injEq] at h
    subst h
    exact Or.inl rfl
  · have hml2 : s.model_loaded = true := by
      cases hm : s.model_loaded
      · exact absurd hm hml
      · rfl
    rcases runPipeline_cases A r with ⟨e2, he⟩ | ⟨vec, p, pred, _, _, _, hok⟩
    · have h1 := predict_income_loaded_err A s r hml2 e2 (he s)
      rw [h1] at h
      simp only [Except.error.injEq] at h
      subst h
      exact Or.inr rfl
    · obtain ⟨s2, hrun, -, -, -⟩ := hok s
      have h1 := predict_income_loaded_ok A s r hml2 s2 _ _ hrun
      rw [h1] at h
      simp at h

/-! ### Claim theorems -/

/-- C1: for every sequence of handled requests starting from the initial
state, with K the number of successful predictions and M the number of
failed requests among the responses, the global `request_count` is at least
K + M, and the values of the prediction distribution sum to exactly K. -/
theorem counter_property (A : Artifacts) (loaded : Bool) (reqs : List Request) :
    countSuccPred (runRequests A (initState loaded) reqs).2 +
      countFailed (runRequests A (initState loaded) reqs).2 ≤
      (runRequests A (initState loaded) reqs).1.request_count ∧
    predSum (runRequests A (initState loaded) reqs).1 =
      countSuccPred (runRequests A (initState loaded) reqs).2 := by
  constructor
  · have h1 := length_filter_disjoint Response.isSuccessfulPrediction Response.isFailed
      (runRequests A (initState loaded) reqs).2 succ_not_failed
    have h2 := runRequests_length A (initState loaded) reqs
    have h3 := runRequests_request_count A (initState loaded) reqs
    unfold countSuccPred countFailed
    rw [show (initState loaded).request_count = 0 from rfl] at h3
    omega
  · have h := runRequests_predSum A (initState loaded) reqs
    simpa [initState, predSum] using h

/-- C2: whenever `predict_income` succeeds, the returned label is one of the
two class strings and the confidence is the maximum of the probability
distribution the model returned for the encoded record, which lies in
[0,1]. -/
theorem predict_label_confidence (A : Artifacts) (s : ServiceState)
    (r : AttributeRecord) (s2 : ServiceState) (lbl : String) (conf : ℚ)
    (h : predict_income A s r = (s2, Except.ok (lbl, conf))) :
    (lbl = ">50K" ∨ lbl = "<=50K") ∧
    (∃ vec p, A.encoder.encode r = Except.ok vec ∧
      A.model.proba vec = Except.ok p ∧ conf = max p.1 p.2) ∧
    0 ≤ conf ∧ conf ≤ 1 := by
  by_cases hml : s.model_loaded = false
  · rw [predict_income_not_loaded A s r hml] at h
    simp at h
  · have hml2 : s.model_loaded = true := by
      cases hm : s.model_loaded
      · exact absurd hm hml
      · rfl
    rcases runPipeline_cases A r with ⟨e, he⟩ | ⟨vec, p, pred, h1, h2, h3, hok⟩
    · rw [predict_income_loaded_err A s r hml2 e (he s)] at h
      simp at h
    · obtain ⟨s3, hrun, -, -, -⟩ := hok s
      have heq := predict_income_loaded_ok A s r hml2 s3 _ _ hrun
      rw [h] at heq
      simp only [Prod.mk.injEq, Except.ok.injEq] at heq
      obtain ⟨-, hl, hc⟩ := heq
      have hnn := A.model.proba_nonneg vec p h2
      have hs1 := A.model.proba_sum_one vec p h2
      subst hl
      subst hc
      refine ⟨apply_label_cases pred, ⟨vec, p, h1, h2, rfl⟩, ?_, ?_⟩
      · exact le_trans hnn.1 (le_max_left p.1 p.2)
      · apply max_le <;> linarith [hnn.1, hnn.2]

/-- Witness: the prediction contract evaluated at the demo artifacts and
the sample record. -/
theorem predict_label_confidence_witness :
    ("<=50K" = ">50K" ∨ "<=50K" = "<=50K") ∧
    (∃ vec p, demoArtifacts.encoder.encode demoRecord = Except.ok vec ∧
      demoArtifacts.model.proba vec = Except.ok p ∧ (1 : ℚ) = max p.1 p.2) ∧
    (0 : ℚ) ≤ 1 ∧ (1 : ℚ) ≤ 1 :=
  predict_label_confidence demoArtifacts (initState true) demoRecord
    { request_count := 0, preds_gt50K := 0, preds_le50K := 1, model_loaded := true }
    "<=50K" 1 (by decide)

/-- C4: for every request body, the legacy `/data/` route succeeds exactly
when `/v1/predict` succeeds on the same body and state, and on success it
returns in its `result` field exactly the label `/v1/predict` returns. -/
theorem legacy_equivalence (A : Artifacts) (s : ServiceState) (r : AttributeRecord) :
    ((handleRequest A s (Request.legacy r)).2.statusCode = 200 ↔
      (handleRequest A s (Request.predict r)).2.statusCode = 200) ∧
    (∀ lbl conf,
      (handleRequest A s (Request.predict r)).2 = Response.prediction lbl conf →
      (handleRequest A s (Request.legacy r)).2 = Response.legacyResult lbl) := by
  have hp : handleRequest A s (Request.predict r) = predict_route A (log_requests s) r := rfl
  have hleg : handleRequest A s (Request.legacy r) = legacy_inference A (log_requests s) r := rfl
  rw [hp, hleg]
  rcases hpi : predict_income A (log_requests s) r with ⟨s2, res⟩
  cases res with
  | error e =>
      have h1 := predict_route_err A (log_requests s) r e (by rw [hpi])
      have h2 := legacy_inference_err A (log_requests s) r e (by rw [hpi])
      rw [h1, h2]
      have hst := predict_income_err_status A (log_requests s) r e (by rw [hpi])
      constructor
      · constructor <;> intro hx <;> simpa [Response.statusCode] using hx
      · intro lbl conf hcontra
        simp at hcontra
  | ok vp =>
      rcases vp with ⟨lbl0, conf0⟩
      have h1 := predict_route_ok A (log_requests s) r lbl0 conf0 (by rw [hpi])
      have h2 := legacy_inference_ok A (log_requests s) r lbl0 conf0 (by rw [hpi])
      rw [h1, h2]
      constructor
      · simp [Response.statusCode]
      · intro lbl conf heq
        simp only [Response.prediction.injEq] at heq
        rw [heq.1]

/-- Witness: legacy/predict equivalence evaluated at the demo artifacts,
where the predict route returns the label of the sample record. -/
theorem legacy_equivalence_witness :
    (handleRequest demoArtifacts (initState true) (Request.legacy demoRecord)).2 =
      Response.legacyResult "<=50K" :=
  (legacy_equivalence demoArtifacts (initState true) demoRecord).2 "<=50K" 1 (by decide)

/-- C3: when artifact loading failed at startup, the whole run is
independent of the artifacts (no encoding or inference work is reachable),
and response-by-response every health request reports
`unhealthy`/`model_loaded=false` while every predict request gets the 503
`Model not available` error. -/
theorem unavailable_mode (A A2 : Artifacts) (s : ServiceState) (reqs : List Request)
    (h : s.model_loaded = false) :
    runRequests A s reqs = runRequests A2 s reqs ∧
    List.Forall₂ (fun req resp =>
        (req = Request.health → resp = Response.health "unhealthy" false) ∧
        (∀ r, req = Request.predict r →
          resp = Response.errorJSON 503 "detail" "Model not available"))
      reqs (runRequests A s reqs).2 := by
  induction reqs generalizing s with
  | nil => exact ⟨rfl, List.Forall₂.nil⟩
  | cons req rest ih =>
      obtain ⟨hInd, hHealth, hPredict⟩ := handleRequest_not_loaded A A2 s req h
      have hml : (handleRequest A s req).1.model_loaded = false := by
        rw [handleRequest_model_loaded]
        exact h
      obtain ⟨ihEq, ihAll⟩ := ih (handleRequest A s req).1 hml
      constructor
      · rw [runRequests_cons, runRequests_cons, ← hInd, ihEq]
      · rw [runRequests_cons]
        exact List.Forall₂.cons ⟨hHealth, hPredict⟩ ihAll

/-- Witness: the unavailable mode evaluated on a health request followed by
a predict request, against two different artifact pairs. -/
theorem unavailable_mode_witness :
    runRequests demoArtifacts (initState false) [Request.health, Request.predict demoRecord] =
      runRequests demoArtifacts2 (initState false) [Request.health, Request.predict demoRecord] ∧
    List.Forall₂ (fun req resp =>
        (req = Request.health → resp = Response.health "unhealthy" false) ∧
        (∀ r, req = Request.predict r →
          resp = Response.errorJSON 503 "detail" "Model not available"))
      [Request.health, Request.predict demoRecord]
      (runRequests demoArtifacts (initState false)
        [Request.health, Request.predict demoRecord]).2 :=
  unavailable_mode demoArtifacts demoArtifacts2 (initState false)
    [Request.health, Request.predict demoRecord] rfl

/-- C5: the `model_loaded` flag is never modified by any handler or request
sequence, and the health endpoint always answers 200 with a status that
mirrors the startup flag — so per-request failures never flip health and an
unhealthy state persists until restart. -/
theorem health_state_fixed (A : Artifacts) (s : ServiceState) (req : Request)
    (reqs : List Request) :
    (handleRequest A s req).1.model_loaded = s.model_loaded ∧
    (runRequests A s reqs).1.model_loaded = s.model_loaded ∧
    (handleRequest A s Request.health).2.statusCode = 200 ∧
    (handleRequest A s Request.health).2 =
      Response.health (if s.model_loaded then "healthy" else "unhealthy") s.model_loaded :=
  ⟨handleRequest_model_loaded A s req, runRequests_model_loaded A s reqs, rfl, rfl⟩

/-- C6: inference is deterministic: every response in a run of n identical
predict requests equals the response to the first such request — identical
label and identical confidence on every call. -/
theorem predict_deterministic (A : Artifacts) (s : ServiceState) (r : AttributeRecord)
    (n : Nat) (resp : Response)
    (h : resp ∈ (runRequests A s (List.replicate n (Request.predict r))).2) :
    resp = (handleRequest A s (Request.predict r)).2 := by
  induction n generalizing s with
  | zero => simp [runRequests] at h
  | succ k ih =>
      rw [List.replicate_succ, runRequests_cons] at h
      rcases List.mem_cons.mp h with hh | ht
      · exact hh
      · have hml := handleRequest_model_loaded A s (Request.predict r)
        have := ih (handleRequest A s (Request.predict r)).1 ht
        rw [this]
        exact predict_resp_congr A _ s r hml

/-- Witness: five identical predict requests at the demo artifacts all
answer with label `<=50K` and confidence 1. -/
theorem predict_deterministic_witness :
    Response.prediction "<=50K" 1 =
      (handleRequest demoArtifacts (initState true) (Request.predict demoRecord)).2 :=
  predict_deterministic demoArtifacts (initState true) demoRecord 5
    (Response.prediction "<=50K" 1) (by decide)

/-- C9: when the delegated prediction fails, `/data/` answers with the same
status code `/v1/predict` produces (503 or 500), but the message sits under
the `error` key instead of the `detail` key. -/
theorem legacy_error_shape (A : Artifacts) (s : ServiceState) (r : AttributeRecord)
    (code : Nat) (detail : String)
    (h : (handleRequest A s (Request.predict r)).2 = Response.errorJSON code "detail" detail) :
    (handleRequest A s (Request.legacy r)).2 = Response.errorJSON code "error" detail ∧
    (code = 503 ∨ code = 500) := by
  have hp : handleRequest A s (Request.predict r) = predict_route A (log_requests s) r := rfl
  have hleg : handleRequest A s (Request.legacy r) = legacy_inference A (log_requests s) r := rfl
  rw [hp] at h
  rw [hleg]
  rcases hpi : predict_income A (log_requests s) r with ⟨s2, res⟩
  cases res with
  | error e =>
      have h1 := predict_route_err A (log_requests s) r e (by rw [hpi])
      have h2 := legacy_inference_err A (log_requests s) r e (by rw [hpi])
      have hst := predict_income_err_status A (log_requests s) r e (by rw [hpi])
      rw [h1] at h
      simp only [Response.errorJSON.injEq] at h
      obtain ⟨hcode, -, hdetail⟩ := h
      rw [h2, ← hcode, ← hdetail]
      exact ⟨rfl, hst⟩
  | ok vp =>
      rcases vp with ⟨lbl0, conf0⟩
      have h1 := predict_route_ok A (log_requests s) r lbl0 conf0 (by rw [hpi])
      rw [h1] at h
      simp at h

/-- Witness: the legacy error shape evaluated where artifact loading failed,
so the predict route answers 503 under `detail` and the legacy route
answers 503 under `error`. -/
theorem legacy_error_shape_witness :
    (handleRequest demoArtifacts (initState false) (Request.legacy demoRecord)).2 =
      Response.errorJSON 503 "error" "Model not available" ∧
    ((503 : Nat) = 503 ∨ (503 : Nat) = 500) :=
  legacy_error_shape demoArtifacts (initState false) demoRecord 503
    "Model not available" (by decide)

/-- C10: the `request_count` the metrics endpoint returns counts the
in-flight metrics request itself (the middleware increments before the
handler reads), so after any completed request sequence the returned count
is `reqs.length + 1`, strictly greater than the number of requests
completed before it. -/
theorem metrics_counts_inflight (A : Artifacts) (loaded : Bool) (reqs : List Request) :
    (handleRequest A (runRequests A (initState loaded) reqs).1 Request.metrics).2 =
      Response.metrics (reqs.length + 1)
        (runRequests A (initState loaded) reqs).1.preds_gt50K
        (runRequests A (initState loaded) reqs).1.preds_le50K ∧
    reqs.length < reqs.length + 1 := by
  constructor
  · have h := runRequests_request_count A (initState loaded) reqs
    rw [show (initState loaded).request_count = 0 from rfl] at h
    show (log_requests _, get_metrics (log_requests _)).2 = _
    simp [get_metrics, log_requests, h]
  · omega

end CensusAPI

namespace PerfMonitor

/-- C7 (failing evaluation): a cycle whose health check failed with a
network error records `response_time = None`; `check_alerts` then evaluates
`None > 5.0`, which raises `TypeError`, and the exception terminates the
monitoring loop (only `KeyboardInterrupt` is caught) instead of letting it
continue. -/
theorem monitor_crashes_on_failed_health_cycle :
    monitorCycle [] failedHealthCycle =
      Except.error "TypeError: unsupported comparison between NoneType and float" := by
  decide

/-- C8: the metrics history is a bounded FIFO buffer: after every collection
cycle it holds at most 100 entries, it is a suffix of the previous history
with the new entry appended (so only the oldest entries are discarded and
order is preserved), and its length is exactly `min (old + 1) 100`. -/
theorem history_bounded_fifo (hist : List CycleMetrics) (m : CycleMetrics) :
    (collect_metrics hist m).length ≤ 100 ∧
    List.IsSuffix (collect_metrics hist m) (hist ++ [m]) ∧
    (collect_metrics hist m).length = min (hist.length + 1) 100 := by
  unfold collect_metrics
  by_cases h : 100 < (hist ++ [m]).length
  · rw [if_pos h]
    refine ⟨?_, List.drop_suffix _ _, ?_⟩
    · rw [List.length_drop]
      omega
    · rw [List.length_drop]
      simp only [List.length_append, List.length_cons, List.length_nil] at h ⊢
      omega
  · rw [if_neg h]
    simp only [List.length_append, List.length_cons, List.length_nil] at h ⊢
    exact ⟨by omega, List.suffix_refl _, by omega⟩

end PerfMonitor


